import Mathlib

/-!
Shallow embedding of the readthedocs proxito URL-resolution pipeline
(`readthedocs/proxito/views/utils.py`) and of the subscription
reconciliation logic (`readthedocs/subscriptions/managers.py`), together
with theorems settling the specification claims about them.

Conventions of the embedding:
* Python `None`-or-string slugs are `Option String`; Python truthiness of
  such a value (`if lang_slug:`) is `optTruthy` (false for `none` and for
  the empty string).
* Fallible code (`get_object_or_404`) returns `Except NotFoundKind _`.
* The Django request object is the `Request` structure; attribute writes
  performed by the code are modelled by returning an updated `Request`.
* Project records are immutable values threaded through the pipeline; the
  pipeline output returns them alongside the result so that frame
  properties (which records changed) are statable.
-/

/-- Python truthiness for an optional string: `None` and `""` are falsy. -/
def optTruthy : Option String → Bool
  | none => false
  | some s => !(s == "")

/-- Substring containment on strings, the Python `needle in hay` test. -/
def strContains (hay needle : String) : Bool :=
  (List.range (hay.length + 1)).any (fun i => needle.toList.isPrefixOf (hay.toList.drop i))

/-- POSIX `os.path.join` on two components: an absolute second component
replaces the first; otherwise a `/` separator is inserted unless the first
component is empty or already ends in `/`. The `startswith`/`endswith`
tests of `posixpath.join` are taken on the character list. -/
def osPathJoin2 (a b : String) : String :=
  if b.toList.head? = some '/' then b
  else if a = "" ∨ a.toList.getLast? = some '/' then a ++ b
  else a ++ "/" ++ b

/-- `os.path.join(a, b, c)`, folding `osPathJoin2` left to right as the
CPython implementation does. -/
def osPathJoin3 (a b c : String) : String := osPathJoin2 (osPathJoin2 a b) c

/-- Identity fields of a project record: `slug`, `language`,
`single_version`, `default_version` and `urlconf`. Translations of a
project are themselves projects; only their identity fields are needed
once one is selected, so the translation set stores `ProjectData`. -/
structure ProjectData where
  slug : String
  language : String
  single_version : Bool
  default_version : String
  urlconf : Option String
  deriving Repr, DecidableEq

/-- A project record as seen by the resolution pipeline: its identity
fields plus its translation set (`project.translations.all()`). -/
structure Project where
  data : ProjectData
  translations : List ProjectData
  deriving Repr, DecidableEq

/-- Modelled from the spec: `Project.get_default_version` is defined
outside the provided sources. Per the spec, a project carries a
"`default_version` (resolved version slug)" and version defaulting sets
`version_slug` to the final project's "configured default version". -/
def ProjectData.get_default_version (p : ProjectData) : String :=
  p.default_version

/-- The two structured not-found kinds of the resolution pipeline. -/
inductive NotFoundKind where
  | translation
  | subproject
  deriving Repr, DecidableEq

/-- The route matched by the URL dispatcher for the current request
(`request.resolver_match`); `url_name` may be absent. -/
structure ResolverMatch where
  url_name : Option String
  deriving Repr, DecidableEq

/-- The Django request object, restricted to the fields the embedded code
reads or writes: the request path, the matched route, and the two
request-scoped annotations written by `_get_project_data_from_request`. -/
structure Request where
  path : String
  resolver_match : Option ResolverMatch
  path_project_slug : Option String
  path_version_slug : Option (Option String)
  deriving Repr, DecidableEq

/-- The single-version fold of `_get_project_data_from_request` (lines
82-91): when the current project is single-version and both slugs were
supplied, the slugs are joined into the filename and cleared. -/
def singleVersionFold (current_project : Project) (lang_slug version_slug : Option String)
    (filename : String) : Option String × Option String × String :=
  if current_project.data.single_version && optTruthy lang_slug && optTruthy version_slug then
    (none, none, osPathJoin3 (lang_slug.getD "") (version_slug.getD "") filename)
  else
    (lang_slug, version_slug, filename)

/-- The translation-resolution step of `_get_project_data_from_request`
(lines 93-99): keep the current project when the language slug is falsy or
names its own language, otherwise find the translation with that language
or fail with a translation not-found. -/
def resolveTranslation (current_project : Project) (lang_slug : Option String) :
    Except NotFoundKind ProjectData :=
  if !optTruthy lang_slug || lang_slug == some current_project.data.language then
    Except.ok current_project.data
  else
    match current_project.translations.find? (fun t => t.language == lang_slug.getD "") with
    | some t => Except.ok t
    | none => Except.error NotFoundKind.translation

/-- The version-defaulting step (lines 101-109): an empty version slug is
replaced by the final project's default version when that project is
single-version, or when the base project's `urlconf` is truthy and does
not mention `$version`. -/
def versionDefault (base_urlconf : Option String) (final_project : ProjectData)
    (version_slug : Option String) : Option String :=
  if (!optTruthy version_slug && final_project.single_version)
      || (!optTruthy version_slug && optTruthy base_urlconf
            && !strContains (base_urlconf.getD "") "$version") then
    some final_project.get_default_version
  else
    version_slug

/-- The language-defaulting step (line 112-113): an empty language slug is
replaced by the final project's language when the base project's `urlconf`
is truthy and does not mention `$language`. -/
def langDefault (base_urlconf : Option String) (final_project : ProjectData)
    (lang_slug : Option String) : Option String :=
  if !optTruthy lang_slug && optTruthy base_urlconf
      && !strContains (base_urlconf.getD "") "$language" then
    some final_project.language
  else
    lang_slug

/-- The value returned by a successful run of
`_get_project_data_from_request`, together with the post-call state of the
request object and of the project records the call received (the source
performs no assignment to any project attribute, so the records come back
unchanged by construction of the translation). -/
structure ResolveOutcome where
  request : Request
  project : Project
  subproject : Option Project
  final_project : ProjectData
  lang_slug : Option String
  version_slug : Option String
  filename : String
  deriving Repr, DecidableEq

/-- `_get_project_data_from_request` (lines 64-125): take the subproject
when present, apply the single-version fold, resolve the translation,
default the version and language slugs, record the two request-scoped
annotations, and return the final project with the resolved fields. -/
def getProjectDataFromRequest (request : Request) (project : Project)
    (subproject : Option Project) (lang_slug version_slug : Option String)
    (filename : String) : Except NotFoundKind ResolveOutcome :=
  let current_project := subproject.getD project
  let folded := singleVersionFold current_project lang_slug version_slug filename
  match resolveTranslation current_project folded.1 with
  | Except.error e => Except.error e
  | Except.ok final_project =>
    let v := versionDefault project.data.urlconf final_project folded.2.1
    let l := langDefault project.data.urlconf final_project folded.1
    Except.ok
      { request := { request with
                      path_project_slug := some final_project.slug
                      path_version_slug := some v }
        project := project
        subproject := subproject
        final_project := final_project
        lang_slug := l
        version_slug := v
        filename := folded.2.2 }

/-- An HTTP response as produced by the embedded views: either a plain
body-and-status response (`HttpResponse`) or a template rendering
(`render` followed by a status override). -/
inductive Response where
  | http (body : String) (status : Nat)
  | rendered (template_name : String) (context : List (String × String)) (status : Nat)
  deriving Repr, DecidableEq

/-- `fast_404` (utils.py lines 13-20): a minimal `Not Found.` response with
status 404 and no template rendering; every argument beyond the request is
ignored. -/
def fast_404 (_request : Request) : Response :=
  Response.http "Not Found." 404

/-- Modelled from the spec: `ContextualizedHttp404`
(`readthedocs/proxito/exceptions.py`) is outside the provided sources.
Per the spec, a contextualized not-found "carries a `template_name`, an
HTTP status (defaults to 404), and a context mapping" consumed by the
diagnostic renderer; the context mapping is an association list of string
keys and values. -/
structure ContextualizedHttp404 where
  template_name : String
  http_status : Nat
  context : List (String × String)
  deriving Repr, DecidableEq

/-- Modelled from the spec: `ContextualizedHttp404.get_context` returns
the exception's context mapping. -/
def ContextualizedHttp404.get_context (e : ContextualizedHttp404) :
    List (String × String) :=
  e.context

/-- Dictionary lookup on the association-list model of a context mapping
(Python `d.get(k)`). -/
def dictGet (d : List (String × String)) (k : String) : Option String :=
  d.lookup k

/-- Dictionary update `d[k] = v` on the association-list model: the new
binding shadows any older one under `dictGet`. -/
def dictSet (d : List (String × String)) (k v : String) : List (String × String) :=
  (k, v) :: d

/-- The context mapping of a rendered response, absent on a plain
body-and-status response. -/
def Response.contextDict : Response → Option (List (String × String))
  | Response.rendered _ c _ => some c
  | Response.http _ _ => none

/-- `proxito_404_page_handler` (utils.py lines 23-61). A request whose
matched route exists and is not `proxito_404_handler` gets the fast 404;
otherwise the handler renders a template: a `ContextualizedHttp404`
exception supplies context, template and status (else the defaults), and
`path_not_found` is set to the context's truthy value or the request path.
A non-`ContextualizedHttp404` exception behaves exactly like no exception
(the code only tests `isinstance`), so `exception` is
`Option ContextualizedHttp404`. -/
def proxito_404_page_handler (request : Request)
    (template_name : String := "errors/404/base.html")
    (exception : Option ContextualizedHttp404 := none) : Response :=
  if (match request.resolver_match with
      | some rm => rm.url_name != some "proxito_404_handler"
      | none => false) then
    fast_404 request
  else
    let state :=
      match exception with
      | some e => (e.get_context, e.template_name, e.http_status)
      | none => (([] : List (String × String)), template_name, 404)
    let context := state.1
    let path_not_found :=
      match dictGet context "path_not_found" with
      | some s => if s == "" then request.path else s
      | none => request.path
    Response.rendered state.2.1 (dictSet context "path_not_found" path_not_found) state.2.2

/-- An organization record, restricted to the fields read or written by
`SubscriptionManager.update_from_stripe`. -/
structure Organization where
  slug : String
  disabled : Bool
  deriving Repr, DecidableEq

/-- A Stripe price object, as carried by a subscription item. -/
structure StripePrice where
  id : String
  deriving Repr, DecidableEq

/-- A Stripe subscription item with its price. -/
structure StripeItem where
  price : StripePrice
  deriving Repr, DecidableEq

/-- The incoming Stripe subscription payload: id, status, period bounds,
trial end and the item list. Timestamps are `Option Nat` (a Python
`datetime` is always truthy, `None` is falsy). -/
structure StripeSubscription where
  id : String
  status : String
  current_period_start : Option Nat
  current_period_end : Option Nat
  trial_end : Option Nat
  items : List StripeItem
  deriving Repr, DecidableEq

/-- A local billing plan record (`subscriptions.models.Plan`), restricted
to the fields `_get_plan` filters on. -/
structure Plan where
  slug : String
  name : String
  stripe_id : String
  deriving Repr, DecidableEq

/-- The local subscription record updated by `update_from_stripe`,
carrying its organization. -/
structure RTDSubscription where
  stripe_id : Option String
  status : String
  plan : Option Plan
  end_date : Option Nat
  trial_end_date : Option Nat
  organization : Organization
  deriving Repr, DecidableEq

/-- `SubscriptionManager._get_plan` (managers.py lines 142-161): among the
plan records, exclude those whose slug contains `custom` or whose name
contains `Custom` case-insensitively, then `get` by stripe id — exactly
one match returns it, zero or several return `None`. -/
def get_plan (plans : List Plan) (stripe_price : StripePrice) : Option Plan :=
  match plans.filter (fun p =>
      !strContains p.slug "custom"
      && !strContains p.name.toLower "custom"
      && p.stripe_id == stripe_price.id) with
  | [p] => some p
  | _ => none

/-- The outcome of `update_from_stripe`: the updated subscription record
(whose `organization` field is the post-call organization record) and
whether `organization.save()` was called. -/
structure UpdateResult where
  rtd_subscription : RTDSubscription
  organization_saved : Bool
  deriving Repr, DecidableEq

/-- `SubscriptionManager.update_from_stripe` (managers.py lines 57-140):
copy the status, replace the stripe id when it changed, update the trial
end when present, set the plan from the first subscription item whose
price matches a unique local plan, move `end_date` per the
`active`/`past_due` rules, and re-enable (and save) the organization when
the incoming status is `active` and the organization is disabled. -/
def update_from_stripe (plans : List Plan) (rtd_subscription : RTDSubscription)
    (stripe_subscription : StripeSubscription) : UpdateResult :=
  let start_date := stripe_subscription.current_period_start
  let end_date := stripe_subscription.current_period_end
  let s1 := { rtd_subscription with status := stripe_subscription.status }
  let s2 := if some stripe_subscription.id != s1.stripe_id then
              { s1 with stripe_id := some stripe_subscription.id }
            else s1
  let s3 := match stripe_subscription.trial_end with
            | some t => { s2 with trial_end_date := some t }
            | none => s2
  let s4 := match (stripe_subscription.items.filterMap
                    (fun it => get_plan plans it.price)).head? with
            | some p => { s3 with plan := some p }
            | none => s3
  let s5 := if stripe_subscription.status == "active" && end_date.isSome then
              { s4 with end_date := end_date }
            else if stripe_subscription.status == "past_due" && start_date.isSome then
              { s4 with end_date := start_date }
            else s4
  let organization := s5.organization
  if stripe_subscription.status == "active" && organization.disabled then
    { rtd_subscription := { s5 with organization := { organization with disabled := false } }
      organization_saved := true }
  else
    { rtd_subscription := s5
      organization_saved := false }

/-! Helper lemmas shared by the claim theorems. -/

theorem singleVersionFold_not_fired (current_project : Project)
    (lang_slug version_slug : Option String) (filename : String)
    (h : (current_project.data.single_version && optTruthy lang_slug
            && optTruthy version_slug) = false) :
    singleVersionFold current_project lang_slug version_slug filename
      = (lang_slug, version_slug, filename) := by
  unfold singleVersionFold
  simp [h]

theorem versionDefault_idem (base_urlconf : Option String) (final_project : ProjectData)
    (version_slug : Option String) :
    versionDefault base_urlconf final_project
        (versionDefault base_urlconf final_project version_slug)
      = versionDefault base_urlconf final_project version_slug := by
  by_cases h1 : optTruthy version_slug = true
  · simp [versionDefault, h1]
  · simp only [Bool.not_eq_true] at h1
    by_cases hd : optTruthy (some final_project.get_default_version) = true
    · by_cases h2 : final_project.single_version = true
      · simp [versionDefault, h1, h2, hd]
      · simp only [Bool.not_eq_true] at h2
        by_cases hu : optTruthy base_urlconf = true
        · by_cases hc : strContains (base_urlconf.getD "") "$version" = true
          · simp [versionDefault, h1, h2, hu, hc]
          · simp only [Bool.not_eq_true] at hc
            simp [versionDefault, h1, h2, hu, hc, hd]
        · simp only [Bool.not_eq_true] at hu
          simp [versionDefault, h1, h2, hu]
    · simp only [Bool.not_eq_true] at hd
      by_cases h2 : final_project.single_version = true
      · simp [versionDefault, h1, h2, hd]
      · simp only [Bool.not_eq_true] at h2
        by_cases hu : optTruthy base_urlconf = true
        · by_cases hc : strContains (base_urlconf.getD "") "$version" = true
          · simp [versionDefault, h1, h2, hu, hc]
          · simp only [Bool.not_eq_true] at hc
            simp [versionDefault, h1, h2, hu, hc, hd]
        · simp only [Bool.not_eq_true] at hu
          simp [versionDefault, h1, h2, hu]

theorem langDefault_idem (base_urlconf : Option String) (final_project : ProjectData)
    (lang_slug : Option String) :
    langDefault base_urlconf final_project
        (langDefault base_urlconf final_project lang_slug)
      = langDefault base_urlconf final_project lang_slug := by
  by_cases h1 : optTruthy lang_slug = true
  · simp [langDefault, h1]
  · simp only [Bool.not_eq_true] at h1
    by_cases hu : optTruthy base_urlconf = true
    · by_cases hc : strContains (base_urlconf.getD "") "$language" = true
      · simp [langDefault, h1, hu, hc]
      · simp only [Bool.not_eq_true] at hc
        by_cases hl : optTruthy (some final_project.language) = true
        · simp [langDefault, h1, hu, hc, hl]
        · simp only [Bool.not_eq_true] at hl
          simp [langDefault, h1, hu, hc, hl]
    · simp only [Bool.not_eq_true] at hu
      simp [langDefault, h1, hu]

theorem resolve_ok_elim {request : Request} {project : Project} {subproject : Option Project}
    {lang_slug version_slug : Option String} {filename : String} {o : ResolveOutcome}
    (hok : getProjectDataFromRequest request project subproject lang_slug version_slug filename
             = Except.ok o) :
    resolveTranslation (subproject.getD project)
        (singleVersionFold (subproject.getD project) lang_slug version_slug filename).1
      = Except.ok o.final_project
    ∧ o.lang_slug = langDefault project.data.urlconf o.final_project
        (singleVersionFold (subproject.getD project) lang_slug version_slug filename).1
    ∧ o.version_slug = versionDefault project.data.urlconf o.final_project
        (singleVersionFold (subproject.getD project) lang_slug version_slug filename).2.1
    ∧ o.filename = (singleVersionFold (subproject.getD project) lang_slug version_slug filename).2.2
    ∧ o.project = project ∧ o.subproject = subproject
    ∧ o.request = { request with
        path_project_slug := some o.final_project.slug
        path_version_slug := some o.version_slug } := by
  simp only [getProjectDataFromRequest] at hok
  cases htr : resolveTranslation (subproject.getD project)
      (singleVersionFold (subproject.getD project) lang_slug version_slug filename).1 with
  | error e =>
    rw [htr] at hok
    simp at hok
  | ok fp =>
    rw [htr] at hok
    simp only [Except.ok.injEq] at hok
    subst hok
    simp

/-- C4: translation resolution keeps the current project when the language
slug is empty or equals its own language; a slug naming the unique
translation with that language yields exactly that translation; a
non-empty slug differing from the project's language with no matching
translation fails with the translation not-found error. -/
theorem C4_translation_resolution (current_project : Project) (lang_slug : Option String) :
    ((optTruthy lang_slug = false ∨ lang_slug = some current_project.data.language) →
        resolveTranslation current_project lang_slug = Except.ok current_project.data)
    ∧ (∀ t : ProjectData, optTruthy lang_slug = true →
        lang_slug ≠ some current_project.data.language →
        t ∈ current_project.translations → t.language = lang_slug.getD "" →
        (∀ u : ProjectData, u ∈ current_project.translations →
          u.language = lang_slug.getD "" → u = t) →
        resolveTranslation current_project lang_slug = Except.ok t)
    ∧ (optTruthy lang_slug = true →
        lang_slug ≠ some current_project.data.language →
        (∀ u : ProjectData, u ∈ current_project.translations →
          u.language ≠ lang_slug.getD "") →
        resolveTranslation current_project lang_slug = Except.error NotFoundKind.translation) := by
  refine ⟨?_, ?_, ?_⟩
  · intro h
    unfold resolveTranslation
    rcases h with h | h
    · simp [h]
    · simp [h]
  · intro t htruthy hne hmem hlang huniq
    unfold resolveTranslation
    rw [if_neg (by simp [htruthy, hne])]
    cases hfind : current_project.translations.find? (fun u => u.language == lang_slug.getD "") with
    | none =>
      exfalso
      have := List.find?_eq_none.mp hfind t hmem
      simp [hlang] at this
    | some u =>
      have hu1 : u ∈ current_project.translations := List.mem_of_find?_eq_some hfind
      have hu2 := List.find?_some hfind
      simp only [beq_iff_eq] at hu2
      simp [huniq u hu1 hu2]
  · intro htruthy hne hnone
    unfold resolveTranslation
    rw [if_neg (by simp [htruthy, hne])]
    have hfind : current_project.translations.find?
        (fun u => u.language == lang_slug.getD "") = none := by
      apply List.find?_eq_none.mpr
      intro u hu
      simp [hnone u hu]
    simp [hfind]

/-- In the claim's wording, C4's theorem has hypotheses; this closed
instance applies it to a project with language `en` and a single `fr`
translation, which the slug `fr` selects. -/
theorem C4_translation_witness :
    (optTruthy (some "fr") = true
      ∧ resolveTranslation
          ⟨⟨"pip", "en", false, "latest", none⟩, [⟨"pip-fr", "fr", false, "latest", none⟩]⟩
          (some "fr")
        = Except.ok ⟨"pip-fr", "fr", false, "latest", none⟩)
    ∧ resolveTranslation
          ⟨⟨"pip", "en", false, "latest", none⟩, [⟨"pip-fr", "fr", false, "latest", none⟩]⟩
          none
        = Except.ok ⟨"pip", "en", false, "latest", none⟩
    ∧ resolveTranslation
          ⟨⟨"pip", "en", false, "latest", none⟩, [⟨"pip-fr", "fr", false, "latest", none⟩]⟩
          (some "de")
        = Except.error NotFoundKind.translation :=
  ⟨⟨rfl,
    (C4_translation_resolution
        ⟨⟨"pip", "en", false, "latest", none⟩, [⟨"pip-fr", "fr", false, "latest", none⟩]⟩
        (some "fr")).2.1
      ⟨"pip-fr", "fr", false, "latest", none⟩ rfl (by decide) (by decide) rfl (by decide)⟩,
    (C4_translation_resolution
        ⟨⟨"pip", "en", false, "latest", none⟩, [⟨"pip-fr", "fr", false, "latest", none⟩]⟩
        none).1 (Or.inl rfl),
    (C4_translation_resolution
        ⟨⟨"pip", "en", false, "latest", none⟩, [⟨"pip-fr", "fr", false, "latest", none⟩]⟩
        (some "de")).2.2 rfl (by decide) (by decide)⟩

/-- C1 (counterexample): the single-version fold keys on the
pre-translation current project, not on the final project. A base project
that is not single-version with a single-version `fr` translation,
requested with `lang_slug="fr"`, `version_slug="latest"`,
`filename="index.html"`, resolves to a final project with
`single_version = true` and both slugs supplied non-empty, yet the
returned filename is not the fold and the slugs are not cleared. -/
theorem C1_counterexample :
    getProjectDataFromRequest ⟨"/fr/latest/index.html", none, none, none⟩
        ⟨⟨"pip", "en", false, "latest", none⟩, [⟨"pip-fr", "fr", true, "latest", none⟩]⟩
        none (some "fr") (some "latest") "index.html"
      = Except.ok
          ⟨⟨"/fr/latest/index.html", none, some "pip-fr", some (some "latest")⟩,
            ⟨⟨"pip", "en", false, "latest", none⟩, [⟨"pip-fr", "fr", true, "latest", none⟩]⟩,
            none, ⟨"pip-fr", "fr", true, "latest", none⟩,
            some "fr", some "latest", "index.html"⟩
    ∧ (⟨"pip-fr", "fr", true, "latest", none⟩ : ProjectData).single_version = true
    ∧ optTruthy (some "fr") = true ∧ optTruthy (some "latest") = true
    ∧ ¬(("index.html" : String) = osPathJoin3 "fr" "latest" "index.html"
          ∧ (some "fr" : Option String) = none ∧ (some "latest" : Option String) = none) :=
  ⟨rfl, rfl, rfl, rfl, by decide⟩

/-- C1 (amended): the fold is governed by the current project — the
subproject if present, else the base project, before translation
resolution. Whenever that project is single-version and both slugs are
supplied non-empty, the fold step joins them into the filename and clears
both slugs (version defaulting subsequently re-fills the version slug). -/
theorem C1_fold_current_project (current_project : Project)
    (lang_slug version_slug : Option String) (filename : String)
    (hsv : current_project.data.single_version = true)
    (hl : optTruthy lang_slug = true) (hv : optTruthy version_slug = true) :
    singleVersionFold current_project lang_slug version_slug filename
      = (none, none, osPathJoin3 (lang_slug.getD "") (version_slug.getD "") filename) := by
  unfold singleVersionFold
  simp [hsv, hl, hv]

/-- Closed instance of C1's amended theorem at the claim's own example:
`lang_slug="en"`, `version_slug="latest"`, `filename="index.html"` on a
single-version project fold into `en/latest/index.html` with both slugs
cleared. -/
theorem C1_fold_witness :
    (⟨⟨"pip", "en", true, "latest", none⟩, []⟩ : Project).data.single_version = true
    ∧ optTruthy (some "en") = true ∧ optTruthy (some "latest") = true
    ∧ singleVersionFold ⟨⟨"pip", "en", true, "latest", none⟩, []⟩
        (some "en") (some "latest") "index.html"
      = (none, none, "en/latest/index.html") :=
  ⟨rfl, rfl, rfl, by
    have h := C1_fold_current_project ⟨⟨"pip", "en", true, "latest", none⟩, []⟩
      (some "en") (some "latest") "index.html" rfl rfl rfl
    rw [h]
    rfl⟩

/-- C2 (counterexample): on a project with `urlconf = none` that is not
single-version, an empty `version_slug` is not defaulted: the pipeline
succeeds and returns the empty slug unchanged instead of the default
version `latest`. -/
theorem C2_counterexample :
    getProjectDataFromRequest ⟨"/", none, none, none⟩
        ⟨⟨"pip", "en", false, "latest", none⟩, []⟩ none (some "en") (some "") "index.html"
      = Except.ok
          ⟨⟨"/", none, some "pip", some (some "")⟩,
            ⟨⟨"pip", "en", false, "latest", none⟩, []⟩, none,
            ⟨"pip", "en", false, "latest", none⟩, some "en", some "", "index.html"⟩
    ∧ optTruthy (some "") = false
    ∧ (some "" : Option String) ≠ some ("latest" : String) :=
  ⟨rfl, rfl, by decide⟩

/-- C2 (amended): on a success path with an empty incoming `version_slug`,
the returned `version_slug` is the final project's default version exactly
when that project is single-version or the base project's `urlconf` is
non-empty and does not contain `$version`; otherwise the empty slug is
returned unchanged. -/
theorem C2_version_defaulting (request : Request) (project : Project)
    (subproject : Option Project) (lang_slug version_slug : Option String)
    (filename : String) (o : ResolveOutcome)
    (hok : getProjectDataFromRequest request project subproject lang_slug version_slug filename
             = Except.ok o)
    (hv : optTruthy version_slug = false) :
    o.version_slug =
      if (o.final_project.single_version
            || (optTruthy project.data.urlconf
                  && !strContains (project.data.urlconf.getD "") "$version")) = true then
        some o.final_project.default_version
      else version_slug := by
  obtain ⟨htr, hlang, hver, hfile, -, -, -⟩ := resolve_ok_elim hok
  have hfold : singleVersionFold (subproject.getD project) lang_slug version_slug filename
      = (lang_slug, version_slug, filename) :=
    singleVersionFold_not_fired _ _ _ _ (by simp [hv])
  rw [hfold] at hver
  rw [hver]
  unfold versionDefault ProjectData.get_default_version
  simp [hv]

/-- Closed instance of C2's amended theorem: a single-version project with
`urlconf="$filename"` and no incoming version slug gets the default
version `latest`. -/
theorem C2_version_defaulting_witness :
    (⟨⟨"/", none, some "pip", some (some "latest")⟩,
        ⟨⟨"pip", "en", true, "latest", some "$filename"⟩, []⟩, none,
        ⟨"pip", "en", true, "latest", some "$filename"⟩,
        some "en", some "latest", "index.html"⟩ : ResolveOutcome).version_slug =
      if ((⟨"pip", "en", true, "latest", some "$filename"⟩ : ProjectData).single_version
            || (optTruthy (some "$filename")
                  && !strContains ((some "$filename" : Option String).getD "") "$version")) = true then
        some (⟨"pip", "en", true, "latest", some "$filename"⟩ : ProjectData).default_version
      else none :=
  C2_version_defaulting ⟨"/", none, none, none⟩
    ⟨⟨"pip", "en", true, "latest", some "$filename"⟩, []⟩ none none none "index.html"
    ⟨⟨"/", none, some "pip", some (some "latest")⟩,
      ⟨⟨"pip", "en", true, "latest", some "$filename"⟩, []⟩, none,
      ⟨"pip", "en", true, "latest", some "$filename"⟩,
      some "en", some "latest", "index.html"⟩ rfl rfl

/-- C3 (counterexample): the success-path invariant fails. A project that
is not single-version with `urlconf = none`, requested through the
single-version URL shape (no language or version segment), succeeds with
both slugs still unresolved (`none`, which is falsy). -/
theorem C3_counterexample :
    getProjectDataFromRequest ⟨"/", none, none, none⟩
        ⟨⟨"pip", "en", false, "latest", none⟩, []⟩ none none none "index.html"
      = Except.ok
          ⟨⟨"/", none, some "pip", some none⟩,
            ⟨⟨"pip", "en", false, "latest", none⟩, []⟩, none,
            ⟨"pip", "en", false, "latest", none⟩, none, none, "index.html"⟩
    ∧ optTruthy none = false :=
  ⟨rfl, rfl⟩

theorem optTruthy_some_iff (s : String) : optTruthy (some s) = true ↔ s ≠ "" := by
  unfold optTruthy
  simp

/-- C3 (amended): on a success path the slugs are resolved exactly under
the defaulting conditions: the returned `version_slug` is non-empty
whenever the incoming one was, or the final project is single-version, or
the base `urlconf` is non-empty without `$version` (given a non-empty
default version); the returned `lang_slug` is non-empty whenever the base
`urlconf` is non-empty without `$language` (given a non-empty project
language); otherwise a slug can come back empty. -/
theorem C3_resolution_guarantees (request : Request) (project : Project)
    (subproject : Option Project) (lang_slug version_slug : Option String)
    (filename : String) (o : ResolveOutcome)
    (hok : getProjectDataFromRequest request project subproject lang_slug version_slug filename
             = Except.ok o) :
    ((optTruthy version_slug = true ∨ o.final_project.single_version = true
        ∨ (optTruthy project.data.urlconf = true
            ∧ strContains (project.data.urlconf.getD "") "$version" = false)) →
      o.final_project.default_version ≠ "" →
      optTruthy o.version_slug = true)
    ∧ (optTruthy project.data.urlconf = true →
        strContains (project.data.urlconf.getD "") "$language" = false →
        o.final_project.language ≠ "" →
        optTruthy o.lang_slug = true) := by
  obtain ⟨htr, hlang, hver, hfile, -, -, -⟩ := resolve_ok_elim hok
  constructor
  · intro hcase hd
    by_cases hcond : ((subproject.getD project).data.single_version
        && optTruthy lang_slug && optTruthy version_slug) = true
    · have hfold : singleVersionFold (subproject.getD project) lang_slug version_slug filename
          = (none, none, osPathJoin3 (lang_slug.getD "") (version_slug.getD "") filename) := by
        unfold singleVersionFold
        simp [hcond]
      rw [hfold] at htr hver
      have hfp : o.final_project = (subproject.getD project).data := by
        unfold resolveTranslation at htr
        simp [optTruthy] at htr
        exact htr.symm
      have hsingle : o.final_project.single_version = true := by
        rw [hfp]
        simp only [Bool.and_eq_true] at hcond
        exact hcond.1.1
      rw [hver]
      unfold versionDefault ProjectData.get_default_version
      simp [optTruthy, hsingle, hd]
    · have hfold := singleVersionFold_not_fired (subproject.getD project)
        lang_slug version_slug filename (by simpa using hcond)
      rw [hfold] at htr hver
      rw [hver]
      by_cases hv1 : optTruthy version_slug = true
      · unfold versionDefault
        simp [hv1]
      · simp only [Bool.not_eq_true] at hv1
        rcases hcase with hvs | h | ⟨h1, h2⟩
        · rw [hvs] at hv1
          cases hv1
        · unfold versionDefault ProjectData.get_default_version
          simp only [hv1, h]
          simp [optTruthy_some_iff, hd]
        · unfold versionDefault ProjectData.get_default_version
          simp only [hv1, h1, h2]
          simp [optTruthy_some_iff, hd]
  · intro h1 h2 h3
    rw [hlang]
    by_cases hl1 : optTruthy
        (singleVersionFold (subproject.getD project) lang_slug version_slug filename).1 = true
    · unfold langDefault
      simp [hl1]
    · simp only [Bool.not_eq_true] at hl1
      unfold langDefault
      simp only [hl1, h1, h2]
      simp [optTruthy_some_iff, h3]

/-- Closed instance of C3's amended theorem: on a single-version project
with `urlconf="$filename"` (no `$version`, no `$language` token) and no
incoming slugs, both returned slugs are resolved to non-empty values. -/
theorem C3_resolution_witness :
    optTruthy (⟨⟨"/", none, some "pip", some (some "latest")⟩,
        ⟨⟨"pip", "en", true, "latest", some "$filename"⟩, []⟩, none,
        ⟨"pip", "en", true, "latest", some "$filename"⟩,
        some "en", some "latest", "index.html"⟩ : ResolveOutcome).version_slug = true
    ∧ optTruthy (⟨⟨"/", none, some "pip", some (some "latest")⟩,
        ⟨⟨"pip", "en", true, "latest", some "$filename"⟩, []⟩, none,
        ⟨"pip", "en", true, "latest", some "$filename"⟩,
        some "en", some "latest", "index.html"⟩ : ResolveOutcome).lang_slug = true :=
  ⟨(C3_resolution_guarantees ⟨"/", none, none, none⟩
      ⟨⟨"pip", "en", true, "latest", some "$filename"⟩, []⟩ none none none "index.html"
      ⟨⟨"/", none, some "pip", some (some "latest")⟩,
        ⟨⟨"pip", "en", true, "latest", some "$filename"⟩, []⟩, none,
        ⟨"pip", "en", true, "latest", some "$filename"⟩,
        some "en", some "latest", "index.html"⟩ rfl).1
    (Or.inr (Or.inl rfl)) (by decide),
   (C3_resolution_guarantees ⟨"/", none, none, none⟩
      ⟨⟨"pip", "en", true, "latest", some "$filename"⟩, []⟩ none none none "index.html"
      ⟨⟨"/", none, some "pip", some (some "latest")⟩,
        ⟨⟨"pip", "en", true, "latest", some "$filename"⟩, []⟩, none,
        ⟨"pip", "en", true, "latest", some "$filename"⟩,
        some "en", some "latest", "index.html"⟩ rfl).2
    rfl (by decide) (by decide)⟩

theorem resolveTranslation_self (current_project : Project) (lang_slug : Option String)
    (h : optTruthy lang_slug = false ∨ lang_slug = some current_project.data.language) :
    resolveTranslation current_project lang_slug = Except.ok current_project.data := by
  unfold resolveTranslation
  rcases h with h | h
  · simp [h]
  · simp [h]

/-- C6 (counterexample): the defaulting stage is not idempotent. On a
single-version project with `urlconf="$filename"`, the request
`("en", "latest", "index.html")` folds to
`(None, None, "en/latest/index.html")` and the defaulting rules re-fill
both slugs; re-applying the stage to that output folds again and yields a
different filename. -/
theorem C6_counterexample :
    (getProjectDataFromRequest ⟨"/", none, none, none⟩
        ⟨⟨"pip", "en", true, "latest", some "$filename"⟩, []⟩ none
        (some "en") (some "latest") "index.html").map
        (fun o => (o.lang_slug, o.version_slug, o.filename))
      = Except.ok (some "en", some "latest", "en/latest/index.html")
    ∧ (getProjectDataFromRequest ⟨"/", none, none, none⟩
        ⟨⟨"pip", "en", true, "latest", some "$filename"⟩, []⟩ none
        (some "en") (some "latest") "en/latest/index.html").map
        (fun o => (o.lang_slug, o.version_slug, o.filename))
      = Except.ok (some "en", some "latest", "en/latest/en/latest/index.html")
    ∧ ("en/latest/en/latest/index.html" : String) ≠ "en/latest/index.html" :=
  ⟨rfl, rfl, by decide⟩

/-- C6 (amended): the stage is idempotent except when its output
re-triggers the single-version fold: whenever the current project is not
single-version, or the output's language and version slugs are not both
non-empty, re-applying the pipeline to its own output reproduces the same
final project, slugs and filename. -/
theorem C6_idempotent_unless_refold (request request2 : Request) (project : Project)
    (subproject : Option Project) (lang_slug version_slug : Option String)
    (filename : String) (o : ResolveOutcome)
    (hok : getProjectDataFromRequest request project subproject lang_slug version_slug filename
             = Except.ok o)
    (hguard : ¬((subproject.getD project).data.single_version = true
                ∧ optTruthy o.lang_slug = true ∧ optTruthy o.version_slug = true)) :
    (getProjectDataFromRequest request2 project subproject o.lang_slug o.version_slug
        o.filename).map
        (fun o2 => (o2.final_project, o2.lang_slug, o2.version_slug, o2.filename))
      = Except.ok (o.final_project, o.lang_slug, o.version_slug, o.filename) := by
  obtain ⟨htr, hlang, hver, hfile, -, -, -⟩ := resolve_ok_elim hok
  have hfold2 : singleVersionFold (subproject.getD project) o.lang_slug o.version_slug o.filename
      = (o.lang_slug, o.version_slug, o.filename) := by
    apply singleVersionFold_not_fired
    by_contra hc
    simp only [Bool.not_eq_false, Bool.and_eq_true] at hc
    exact hguard ⟨hc.1.1, hc.1.2, hc.2⟩
  have hlang2 : resolveTranslation (subproject.getD project) o.lang_slug
      = Except.ok o.final_project := by
    by_cases hb : optTruthy
        (singleVersionFold (subproject.getD project) lang_slug version_slug filename).1 = true
    · have heq : o.lang_slug
          = (singleVersionFold (subproject.getD project) lang_slug version_slug filename).1 := by
        rw [hlang]
        unfold langDefault
        simp [hb]
      rw [heq]
      exact htr
    · simp only [Bool.not_eq_true] at hb
      have h0 := resolveTranslation_self (subproject.getD project) _ (Or.inl hb)
      rw [h0] at htr
      have hfp : o.final_project = (subproject.getD project).data :=
        (Except.ok.inj htr).symm
      rw [hlang, hfp]
      apply resolveTranslation_self
      unfold langDefault
      split
      · exact Or.inr rfl
      · exact Or.inl hb
  have hl3 : langDefault project.data.urlconf o.final_project o.lang_slug = o.lang_slug := by
    rw [hlang]
    exact langDefault_idem _ _ _
  have hv3 : versionDefault project.data.urlconf o.final_project o.version_slug
      = o.version_slug := by
    rw [hver]
    exact versionDefault_idem _ _ _
  simp only [getProjectDataFromRequest, hfold2]
  simp only [hlang2, hl3, hv3]
  simp [Except.map]

/-- Closed instance of C6's amended theorem: on a non-single-version
project with `urlconf = none`, re-applying the pipeline to its own output
(which left both slugs empty) reproduces that output. -/
theorem C6_idempotence_witness :
    (getProjectDataFromRequest ⟨"/again", none, none, none⟩
        ⟨⟨"pip", "en", false, "latest", none⟩, []⟩ none none none "index.html").map
        (fun o2 => (o2.final_project, o2.lang_slug, o2.version_slug, o2.filename))
      = Except.ok (⟨"pip", "en", false, "latest", none⟩, none, none, "index.html") :=
  C6_idempotent_unless_refold ⟨"/", none, none, none⟩ ⟨"/again", none, none, none⟩
    ⟨⟨"pip", "en", false, "latest", none⟩, []⟩ none none none "index.html"
    ⟨⟨"/", none, some "pip", some none⟩,
      ⟨⟨"pip", "en", false, "latest", none⟩, []⟩, none,
      ⟨"pip", "en", false, "latest", none⟩, none, none, "index.html"⟩
    rfl (by simp)

/-- C7: the resolution pipeline changes no identity field of any project
record it received — the base project and subproject come back exactly as
passed — and on the request object it writes only the two request-scoped
annotations `path_project_slug` and `path_version_slug`, leaving the other
request fields untouched. -/
theorem C7_frame (request : Request) (project : Project) (subproject : Option Project)
    (lang_slug version_slug : Option String) (filename : String) (o : ResolveOutcome)
    (hok : getProjectDataFromRequest request project subproject lang_slug version_slug filename
             = Except.ok o) :
    o.project = project ∧ o.subproject = subproject
    ∧ o.request.path = request.path
    ∧ o.request.resolver_match = request.resolver_match
    ∧ o.request.path_project_slug = some o.final_project.slug
    ∧ o.request.path_version_slug = some o.version_slug := by
  obtain ⟨-, -, -, -, hp, hs, hreq⟩ := resolve_ok_elim hok
  refine ⟨hp, hs, ?_, ?_, ?_, ?_⟩ <;> rw [hreq]

/-- Closed instance of C7 on a concrete run: the project record is
returned unchanged and only the two annotations are written onto the
request. -/
theorem C7_frame_witness :
    (⟨⟨"/", some ⟨some "docs_detail"⟩, some "pip", some none⟩,
        ⟨⟨"pip", "en", false, "latest", none⟩, []⟩, none,
        ⟨"pip", "en", false, "latest", none⟩, none, none, "index.html"⟩
          : ResolveOutcome).project = ⟨⟨"pip", "en", false, "latest", none⟩, []⟩
    ∧ (⟨⟨"/", some ⟨some "docs_detail"⟩, some "pip", some none⟩,
        ⟨⟨"pip", "en", false, "latest", none⟩, []⟩, none,
        ⟨"pip", "en", false, "latest", none⟩, none, none, "index.html"⟩
          : ResolveOutcome).subproject = none
    ∧ (⟨"/", some ⟨some "docs_detail"⟩, some "pip", some none⟩ : Request).path = "/"
    ∧ (⟨"/", some ⟨some "docs_detail"⟩, some "pip", some none⟩ : Request).resolver_match
        = some ⟨some "docs_detail"⟩
    ∧ (⟨"/", some ⟨some "docs_detail"⟩, some "pip", some none⟩ : Request).path_project_slug
        = some "pip"
    ∧ (⟨"/", some ⟨some "docs_detail"⟩, some "pip", some none⟩ : Request).path_version_slug
        = some none :=
  C7_frame ⟨"/", some ⟨some "docs_detail"⟩, none, none⟩
    ⟨⟨"pip", "en", false, "latest", none⟩, []⟩ none none none "index.html"
    ⟨⟨"/", some ⟨some "docs_detail"⟩, some "pip", some none⟩,
      ⟨⟨"pip", "en", false, "latest", none⟩, []⟩, none,
      ⟨"pip", "en", false, "latest", none⟩, none, none, "index.html"⟩ rfl

/-- C5 (counterexample): the dispatch is the opposite of the claim. A
request whose matched route is the diagnostic route itself
(`proxito_404_handler`) is answered by the contextualized template
rendering, while a request matched to another route is answered by the
fast minimal 404. -/
theorem C5_counterexample :
    proxito_404_page_handler ⟨"/x", some ⟨some "proxito_404_handler"⟩, none, none⟩
        "errors/404/base.html" none
      = Response.rendered "errors/404/base.html" [("path_not_found", "/x")] 404
    ∧ proxito_404_page_handler ⟨"/x", some ⟨some "docs_detail"⟩, none, none⟩
        "errors/404/base.html" none
      = Response.http "Not Found." 404
    ∧ Response.rendered "errors/404/base.html" [("path_not_found", "/x")] 404
      ≠ Response.http "Not Found." 404 :=
  ⟨rfl, rfl, by decide⟩

/-- C5 (amended): when a route is matched, the handler returns the fast
minimal 404 exactly when that route is not the diagnostic
`proxito_404_handler` route; when the matched route is the diagnostic
route itself, it renders the contextualized template instead. -/
theorem C5_dispatch (request : Request) (template_name : String)
    (exception : Option ContextualizedHttp404) (rm : ResolverMatch)
    (hrm : request.resolver_match = some rm) :
    (rm.url_name ≠ some "proxito_404_handler" →
      proxito_404_page_handler request template_name exception
        = Response.http "Not Found." 404)
    ∧ (rm.url_name = some "proxito_404_handler" →
      ∃ t c s, proxito_404_page_handler request template_name exception
        = Response.rendered t c s) := by
  constructor
  · intro h
    unfold proxito_404_page_handler fast_404
    rw [hrm]
    simp [h]
  · intro h
    unfold proxito_404_page_handler
    rw [hrm]
    simp only [h]
    simp only [bne_self_eq_false, Bool.false_eq_true, if_false]
    cases exception with
    | none => exact ⟨_, _, _, rfl⟩
    | some e => exact ⟨_, _, _, rfl⟩

/-- Closed instance of C5's amended theorem on both sides of the
dispatch. -/
theorem C5_dispatch_witness :
    proxito_404_page_handler ⟨"/y", some ⟨some "docs_detail"⟩, none, none⟩
        "errors/404/base.html" none = Response.http "Not Found." 404
    ∧ ∃ t c s, proxito_404_page_handler ⟨"/y", some ⟨some "proxito_404_handler"⟩, none, none⟩
        "errors/404/base.html" none = Response.rendered t c s :=
  ⟨(C5_dispatch ⟨"/y", some ⟨some "docs_detail"⟩, none, none⟩ "errors/404/base.html" none
      ⟨some "docs_detail"⟩ rfl).1 (by decide),
   (C5_dispatch ⟨"/y", some ⟨some "proxito_404_handler"⟩, none, none⟩ "errors/404/base.html"
      none ⟨some "proxito_404_handler"⟩ rfl).2 rfl⟩

theorem dictGet_dictSet (d : List (String × String)) (k v : String) :
    dictGet (dictSet d k v) k = some v := by
  unfold dictGet dictSet
  simp [List.lookup]

/-- C9: in every contextualized 404 rendering, the context's
`path_not_found` entry is populated: it is the exception context's value
when that value is truthy, and the request path otherwise (exception
context missing the key, holding an empty value, or no contextualized
exception at all). -/
theorem C9_path_not_found (request : Request) (template_name : String)
    (exception : Option ContextualizedHttp404)
    (hdiag : ∀ rm : ResolverMatch, request.resolver_match = some rm →
      rm.url_name = some "proxito_404_handler") :
    (proxito_404_page_handler request template_name exception).contextDict.bind
        (fun c => dictGet c "path_not_found")
      = some (match exception with
              | some e =>
                match dictGet e.get_context "path_not_found" with
                | some v => if v == "" then request.path else v
                | none => request.path
              | none => request.path) := by
  unfold proxito_404_page_handler
  have hcond : (match request.resolver_match with
      | some rm => rm.url_name != some "proxito_404_handler"
      | none => false) = false := by
    cases hr : request.resolver_match with
    | none => rfl
    | some rm => simp [hdiag rm hr]
  rw [hcond]
  simp only [Bool.false_eq_true, if_false]
  have hnil : dictGet [] "path_not_found" = none := rfl
  cases exception with
  | none => simp [Response.contextDict, dictGet_dictSet, hnil]
  | some e =>
    cases hg : dictGet e.get_context "path_not_found" with
    | none => simp [Response.contextDict, dictGet_dictSet, hg]
    | some v => simp [Response.contextDict, dictGet_dictSet, hg]

/-- Closed instance of C9 on a request with no matched route and a
contextualized exception carrying a truthy `path_not_found`: the rendered
context keeps the exception's value. -/
theorem C9_path_not_found_witness :
    (proxito_404_page_handler ⟨"/missing", none, none, none⟩ "errors/404/base.html"
        (some ⟨"errors/404/no_version.html", 404, [("path_not_found", "abc")]⟩)).contextDict.bind
        (fun c => dictGet c "path_not_found")
      = some "abc" := by
  have h := C9_path_not_found ⟨"/missing", none, none, none⟩ "errors/404/base.html"
    (some ⟨"errors/404/no_version.html", 404, [("path_not_found", "abc")]⟩)
    (fun rm hr => by cases hr)
  simpa using h

/-- C10: a request with no resolver match does not take the fast 404
path: with no contextualized exception it renders the default template
`errors/404/base.html` with status 404 and the request path as
`path_not_found`. -/
theorem C10_no_resolver_match (request : Request)
    (hnone : request.resolver_match = none) :
    proxito_404_page_handler request "errors/404/base.html" none
      = Response.rendered "errors/404/base.html" [("path_not_found", request.path)] 404 := by
  unfold proxito_404_page_handler
  rw [hnone]
  simp [dictGet, dictSet]

/-- Closed instance of C10: a concrete request with
`resolver_match = none` gets the contextualized default rendering. -/
theorem C10_no_resolver_match_witness :
    proxito_404_page_handler ⟨"/p", none, none, none⟩ "errors/404/base.html" none
      = Response.rendered "errors/404/base.html" [("path_not_found", "/p")] 404 :=
  C10_no_resolver_match ⟨"/p", none, none, none⟩ rfl

theorem update_from_stripe_org (plans : List Plan) (rtd_subscription : RTDSubscription)
    (stripe_subscription : StripeSubscription) :
    (update_from_stripe plans rtd_subscription stripe_subscription).rtd_subscription.organization
      = (if (stripe_subscription.status == "active"
              && rtd_subscription.organization.disabled) = true then
          { rtd_subscription.organization with disabled := false }
        else rtd_subscription.organization)
    ∧ (update_from_stripe plans rtd_subscription stripe_subscription).organization_saved
      = (stripe_subscription.status == "active" && rtd_subscription.organization.disabled) := by
  unfold update_from_stripe
  cases htr : stripe_subscription.trial_end <;>
    cases hh : (stripe_subscription.items.filterMap
        (fun it => get_plan plans it.price)).head? <;>
      by_cases h2 : some stripe_subscription.id = rtd_subscription.stripe_id <;>
        by_cases h5 : (stripe_subscription.status == "active"
            && stripe_subscription.current_period_end.isSome) = true <;>
          by_cases h6 : (stripe_subscription.status == "past_due"
              && stripe_subscription.current_period_start.isSome) = true <;>
            by_cases h7 : (stripe_subscription.status == "active"
                && rtd_subscription.organization.disabled) = true <;>
              simp [htr, hh, h2, h5, h6, h7]

/-- C8: `update_from_stripe` re-enables a disabled organization exactly
when the incoming Stripe status is `active`: in that case the disabled
flag is set to false and the organization is saved; in every other case
the flag is returned unchanged and no organization save happens. -/
theorem C8_reenable_disabled_org (plans : List Plan) (rtd_subscription : RTDSubscription)
    (stripe_subscription : StripeSubscription) :
    (stripe_subscription.status = "active" ∧ rtd_subscription.organization.disabled = true →
      (update_from_stripe plans rtd_subscription
          stripe_subscription).rtd_subscription.organization.disabled = false
      ∧ (update_from_stripe plans rtd_subscription
          stripe_subscription).organization_saved = true)
    ∧ (¬(stripe_subscription.status = "active" ∧ rtd_subscription.organization.disabled = true) →
      (update_from_stripe plans rtd_subscription
          stripe_subscription).rtd_subscription.organization.disabled
        = rtd_subscription.organization.disabled
      ∧ (update_from_stripe plans rtd_subscription
          stripe_subscription).organization_saved = false) := by
  have h := update_from_stripe_org plans rtd_subscription stripe_subscription
  constructor
  · rintro ⟨ha, hd⟩
    refine ⟨?_, ?_⟩
    · rw [h.1]
      simp [ha, hd]
    · rw [h.2]
      simp [ha, hd]
  · intro hn
    have hfalse : (stripe_subscription.status == "active"
        && rtd_subscription.organization.disabled) = false := by
      by_contra hc
      simp only [Bool.not_eq_false, Bool.and_eq_true, beq_iff_eq] at hc
      exact hn ⟨hc.1, hc.2⟩
    refine ⟨?_, ?_⟩
    · rw [h.1]
      simp [hfalse]
    · rw [h.2, hfalse]

/-- Closed instance of C8: an `active` Stripe status on a disabled
organization clears the disabled flag and saves the organization, and a
`past_due` status on the same records leaves the flag untouched. -/
theorem C8_reenable_witness :
    ((update_from_stripe [] ⟨some "sub_1", "canceled", none, none, none, ⟨"org", true⟩⟩
        ⟨"sub_1", "active", some 10, some 20, some 20, []⟩).rtd_subscription.organization.disabled
          = false
      ∧ (update_from_stripe [] ⟨some "sub_1", "canceled", none, none, none, ⟨"org", true⟩⟩
        ⟨"sub_1", "active", some 10, some 20, some 20, []⟩).organization_saved = true)
    ∧ ((update_from_stripe [] ⟨some "sub_1", "canceled", none, none, none, ⟨"org", true⟩⟩
        ⟨"sub_1", "past_due", some 10, some 20, some 20, []⟩).rtd_subscription.organization.disabled
          = true
      ∧ (update_from_stripe [] ⟨some "sub_1", "canceled", none, none, none, ⟨"org", true⟩⟩
        ⟨"sub_1", "past_due", some 10, some 20, some 20, []⟩).organization_saved = false) :=
  ⟨(C8_reenable_disabled_org [] ⟨some "sub_1", "canceled", none, none, none, ⟨"org", true⟩⟩
      ⟨"sub_1", "active", some 10, some 20, some 20, []⟩).1 ⟨rfl, rfl⟩,
   (C8_reenable_disabled_org [] ⟨some "sub_1", "canceled", none, none, none, ⟨"org", true⟩⟩
      ⟨"sub_1", "past_due", some 10, some 20, some 20, []⟩).2 (by decide)⟩
